import Mathlib

/-!
Verification of the musicApp yt-dlp HTTP server
(src/musicApp/PythonServer/server.py) against its specification.

The server is shallowly embedded: the external media-extraction engine
(yt-dlp) and the filesystem are oracles supplied through an environment
record, handler methods become pure Lean functions from the environment
and the request to a response value, and the side effects the handlers
perform (engine invocations, filesystem accesses) are returned as an
explicit trace list so that claims of the form "no engine call is
performed" are statable.
-/

namespace MusicApp

/-! ## Byte-level query-string and URL parsing

Modelled from Python's urllib.parse (urlparse / parse_qsl with default
arguments, as used at server.py lines 56-57), restricted to origin-form
HTTP request targets (paths such as "/info?url=...", which is what
BaseHTTPRequestHandler hands to the handler in self.path; no scheme or
netloc component).  Percent-decoding is modelled byte-for-byte, which
coincides with CPython's unquote on ASCII data. -/

/-- Value of a single hexadecimal digit, as accepted by CPython's
percent-decoder (both lower and upper case). -/
def hexVal? (c : Char) : Option Nat :=
  if '0' ≤ c ∧ c ≤ '9' then some (c.toNat - '0'.toNat)
  else if 'a' ≤ c ∧ c ≤ 'f' then some (c.toNat - 'a'.toNat + 10)
  else if 'A' ≤ c ∧ c ≤ 'F' then some (c.toNat - 'A'.toNat + 10)
  else none

/-- Percent-decoding of a character sequence, modelled from
urllib.parse.unquote: a '%' followed by two hexadecimal digits becomes
the denoted byte; an invalid escape is kept verbatim. -/
def unquoteChars : List Char → List Char
  | [] => []
  | '%' :: a :: b :: rest =>
    match hexVal? a, hexVal? b with
    | some x, some y => Char.ofNat (16 * x + y) :: unquoteChars rest
    | _, _ => '%' :: unquoteChars (a :: b :: rest)
  | '%' :: rest => '%' :: unquoteChars rest
  | c :: rest => c :: unquoteChars rest

/-- The plus-to-space replacement parse_qsl applies before unquoting. -/
def plusToSpace (l : List Char) : List Char :=
  l.map (fun c => if c = '+' then ' ' else c)

/-- Decoding applied by parse_qsl to each name and value:
unquote(s.replace(PLUS, SPACE)). -/
def qsDecode (l : List Char) : String :=
  String.mk (unquoteChars (plusToSpace l))

/-- Split a character list on every occurrence of a separator, like
Python's str.split with an explicit separator: "a&b" gives two
segments, the empty string gives one empty segment. -/
def splitOnChar (sep : Char) : List Char → List (List Char)
  | [] => [[]]
  | c :: rest =>
    let r := splitOnChar sep rest
    if c = sep then [] :: r
    else
      match r with
      | [] => [[c]]
      | h :: t => (c :: h) :: t

/-- Break a character list at the first occurrence of a separator,
returning the part before it and, when the separator occurs, the part
after it (like Python's str.split(sep, 1)). -/
def breakAtFirst (sep : Char) : List Char → List Char × Option (List Char)
  | [] => ([], none)
  | c :: rest =>
    if c = sep then ([], some rest)
    else
      let p := breakAtFirst sep rest
      (c :: p.1, p.2)

/-- Rejoin segments with a separator character. -/
def joinWithChar (sep : Char) : List (List Char) → List Char
  | [] => []
  | [x] => x
  | x :: xs => x ++ sep :: joinWithChar sep xs

/-- One name=value pair of a query string, modelled from the body of
urllib.parse.parse_qsl with keep_blank_values=False: an empty segment
is skipped, a segment without an equals sign is skipped, a segment
whose raw value is empty is skipped, and otherwise name and value are
plus-replaced and percent-decoded. -/
def parsePair (nv : List Char) : Option (String × String) :=
  if nv = [] then none
  else
    match breakAtFirst '=' nv with
    | (_, none) => none
    | (name, some value) =>
      if value = [] then none
      else some (qsDecode name, qsDecode value)

/-- urllib.parse.parse_qsl with default arguments: split the query on
ampersands and keep the decoded non-blank pairs in order. -/
def parse_qsl (qs : String) : List (String × String) :=
  (splitOnChar '&' qs.toList).filterMap parsePair

/-- First value listed for a key.  parse_qs groups parse_qsl's pairs
into a dict of value lists in order of appearance, and the server only
ever reads params.get(key, [None])[0], i.e. the first value of the
key, or None when the key is absent. -/
def getFirstParam (ps : List (String × String)) (k : String) : Option String :=
  (ps.find? (fun p => p.1 = k)).map (fun p => p.2)

/-- The path and query components of a parsed request target. -/
structure UrlParts where
  path : String
  query : String
deriving DecidableEq

/-- The parameter split urlparse applies to the path component: when
the last slash-separated segment contains a semicolon, the path is cut
at that semicolon (urllib.parse._splitparams). -/
def dropParams (l : List Char) : List Char :=
  let segs := splitOnChar '/' l
  joinWithChar '/' (segs.dropLast ++ [(breakAtFirst ';' (segs.getLast?.getD [])).1])

/-- urllib.parse.urlparse restricted to origin-form request targets:
the fragment is everything after the first hash mark and is discarded,
the query is everything after the first question mark of the remainder,
and path parameters after a semicolon are split off the path. -/
def urlparse (raw : String) : UrlParts :=
  let noFrag := (breakAtFirst '#' raw.toList).1
  let p := breakAtFirst '?' noFrag
  { path := String.mk (dropParams p.1), query := String.mk (p.2.getD []) }

/-! ## JSON values, responses, effects -/

/-- JSON values, as far as this server constructs them.  Objects keep
their fields in insertion order, matching json.dumps on a Python dict. -/
inductive J where
  | str (s : String)
  | num (n : Nat)
  | bool (b : Bool)
  | obj (fields : List (String × J))

/-- Field names of a JSON object, in order. -/
def objKeys : J → List String
  | J.obj fs => fs.map (fun f => f.1)
  | _ => []

/-- Response bodies: a JSON value (sent as json.dumps(data).encode()),
raw file bytes, the empty body of the OPTIONS reply, or the HTML error
page the HTTP framework itself generates. -/
inductive BodyVal where
  | json (v : J)
  | bytes (bs : List Nat)
  | empty
  | html (s : String)

/-- Whether a response body is JSON produced via send_json. -/
def BodyVal.isJson : BodyVal → Bool
  | BodyVal.json _ => true
  | _ => false

/-- An HTTP response: status code, headers in the order sent, body. -/
structure Response where
  status : Nat
  headers : List (String × String)
  body : BodyVal

/-- Observable side effects of handling a request: invocations of the
external extraction engine and accesses to the filesystem. -/
inductive Effect where
  | engineCall (kind : String) (url : String)
  | fsAccess (op : String) (p : String)
deriving DecidableEq

/-! ## The external engine and filesystem oracles -/

/-- The info dict yt-dlp's extract_info returns, restricted to the
keys the server reads (title, uploader, duration, thumbnail, id); a
field is none when the key is absent from the engine's result. -/
structure InfoRecord where
  title? : Option String
  uploader? : Option String
  duration? : Option Nat
  thumbnail? : Option String
  id? : Option String
deriving DecidableEq

/-- One entry of os.listdir on the output directory, together with
what os.path.isfile and os.path.getsize report for it. -/
structure DirEntry where
  name : String
  isFile : Bool
  size : Nat
deriving DecidableEq

deriving instance DecidableEq for Except

/-- The behaviour of the engine and the filesystem during one
download_audio call for a given URL: the fresh directory mkdtemp
creates, the outcome of the primary extraction attempt (the option set
with the FFmpegExtractAudio post-processor) and of the fallback
attempt (format selection only), and the directory listing observed
after each attempt.  Except.error models a raised exception carrying
its message text. -/
structure DownloadEnv where
  outputDir : String
  primary : Except String InfoRecord
  listingAfterPrimary : List DirEntry
  fallback : Except String InfoRecord
  listingAfterFallback : List DirEntry
deriving DecidableEq

/-- The environment a request is handled in: the engine's no-download
info call, the per-URL download behaviour, and the filesystem as seen
by os.path.exists and open/read. -/
structure ServerEnv where
  videoInfo : String → Except String InfoRecord
  download : String → DownloadEnv
  fs_exists : String → Bool
  fs_read : String → Except String (List Nat)

/-! ## The handler, translated from server.py -/

/-- server.py line 31: send_json(data, status) renders data as JSON
with the permissive CORS header. -/
def send_json (data : J) (status : Nat) : Response :=
  { status := status
    headers := [("Content-Type", "application/json"),
                ("Access-Control-Allow-Origin", "*")]
    body := BodyVal.json data }

/-- The {"error": msg} bodies the server builds inline. -/
def errJson (msg : String) : J :=
  J.obj [("error", J.str msg)]

/-- server.py line 39: send_file reads the file whole, then replies
200 with octet-stream content type, explicit Content-Length and the
CORS header; a raised read error becomes a 500 JSON error. -/
def send_file (fsRead : String → Except String (List Nat)) (filepath : String) :
    Response :=
  match fsRead filepath with
  | Except.ok data =>
    { status := 200
      headers := [("Content-Type", "application/octet-stream"),
                  ("Content-Length", toString data.length),
                  ("Access-Control-Allow-Origin", "*")]
      body := BodyVal.bytes data }
  | Except.error msg => send_json (errJson msg) 500

/-- server.py line 114: get_video_info projects the engine's info dict
onto the five response keys, substituting a placeholder for any absent
key ("Unknown" for title and uploader, 0 for duration, the empty
string for thumbnail and id). -/
def get_video_info (info : InfoRecord) : J :=
  J.obj [("title", J.str (info.title?.getD "Unknown")),
         ("author", J.str (info.uploader?.getD "Unknown")),
         ("duration", J.num (info.duration?.getD 0)),
         ("thumbnail", J.str (info.thumbnail?.getD "")),
         ("id", J.str (info.id?.getD ""))]

/-- Result of a download_audio call: the value returned (or the raised
exception's message) together with the trace of effects performed. -/
structure DownloadTrace where
  result : Except String J
  effects : List Effect

/-- The scan loop at server.py lines 166-170 and 188-192: the first
listdir entry for which os.path.isfile holds. -/
def findFirstFile (entries : List DirEntry) : Option DirEntry :=
  entries.find? (fun e => e.isFile)

/-- server.py line 134: download_audio.  A fresh output directory is
created; the primary extraction attempt (with the M4A transcode
post-processor) runs; if it raises, the same extraction is retried
once with post-processing disabled, and a failure of that fallback
propagates as the raised exception.  After a non-raising attempt the
output directory is scanned for its first file entry; a found file
yields the success dict with the file's size, and an empty scan yields
the soft-error dict. -/
def download_audio (denv : DownloadEnv) (url : String) : DownloadTrace :=
  let dir := denv.outputDir
  match denv.primary with
  | Except.ok info =>
    let title := info.title?.getD "audio"
    let effs := [Effect.fsAccess "mkdtemp" dir, Effect.engineCall "primary" url,
                 Effect.fsAccess "listdir" dir]
    match findFirstFile denv.listingAfterPrimary with
    | some e =>
      let fp := dir ++ "/" ++ e.name
      { result := Except.ok (J.obj [("success", J.bool true), ("title", J.str title),
                                    ("filepath", J.str fp), ("size", J.num e.size)])
        effects := effs ++ [Effect.fsAccess "getsize" fp] }
    | none =>
      { result := Except.ok (errJson "Download completed but file not found")
        effects := effs }
  | Except.error _ =>
    match denv.fallback with
    | Except.error msg =>
      { result := Except.error msg
        effects := [Effect.fsAccess "mkdtemp" dir, Effect.engineCall "primary" url,
                    Effect.engineCall "fallback" url] }
    | Except.ok info =>
      let title := info.title?.getD "audio"
      let effs := [Effect.fsAccess "mkdtemp" dir, Effect.engineCall "primary" url,
                   Effect.engineCall "fallback" url, Effect.fsAccess "listdir" dir]
      match findFirstFile denv.listingAfterFallback with
      | some e =>
        let fp := dir ++ "/" ++ e.name
        { result := Except.ok (J.obj [("success", J.bool true), ("title", J.str title),
                                      ("filepath", J.str fp), ("size", J.num e.size)])
          effects := effs ++ [Effect.fsAccess "getsize" fp] }
      | none =>
        { result := Except.ok (errJson "Download completed but file not found")
          effects := effs }

/-- server.py line 54: do_GET.  The request target is parsed, the
query string is parsed into parameters, and the path is dispatched:
/health, /info, /download, /file, else a 404.  Each parameter is read
as params.get(key, [None])[0] followed by a falsiness check, so both
an absent key and an empty-string value take the 400 branch.  A raised
engine failure becomes a 500 carrying the exception's message. -/
def do_GET (env : ServerEnv) (raw : String) : Response × List Effect :=
  if (urlparse raw).path = "/health" then
    (send_json (J.obj [("status", J.str "ok"), ("version", J.str "1.0")]) 200, [])
  else if (urlparse raw).path = "/info" then
    match getFirstParam (parse_qsl (urlparse raw).query) "url" with
    | none => (send_json (errJson "Missing url parameter") 400, [])
    | some url =>
      if url = "" then (send_json (errJson "Missing url parameter") 400, [])
      else
        match env.videoInfo url with
        | Except.ok info =>
          (send_json (get_video_info info) 200, [Effect.engineCall "info" url])
        | Except.error msg =>
          (send_json (errJson msg) 500, [Effect.engineCall "info" url])
  else if (urlparse raw).path = "/download" then
    match getFirstParam (parse_qsl (urlparse raw).query) "url" with
    | none => (send_json (errJson "Missing url parameter") 400, [])
    | some url =>
      if url = "" then (send_json (errJson "Missing url parameter") 400, [])
      else
        let tr := download_audio (env.download url) url
        match tr.result with
        | Except.ok j => (send_json j 200, tr.effects)
        | Except.error msg => (send_json (errJson msg) 500, tr.effects)
  else if (urlparse raw).path = "/file" then
    match getFirstParam (parse_qsl (urlparse raw).query) "path" with
    | none => (send_json (errJson "Missing path parameter") 400, [])
    | some p =>
      if p = "" then (send_json (errJson "Missing path parameter") 400, [])
      else if env.fs_exists p then
        (send_file env.fs_read p, [Effect.fsAccess "exists" p, Effect.fsAccess "open" p])
      else
        (send_json (errJson "File not found") 404, [Effect.fsAccess "exists" p])
  else
    (send_json (errJson "Not found") 404, [])

/-- server.py line 106: do_OPTIONS replies 200 with the three CORS
headers and no body, for every request target. -/
def do_OPTIONS : Response :=
  { status := 200
    headers := [("Access-Control-Allow-Origin", "*"),
                ("Access-Control-Allow-Methods", "GET, POST, OPTIONS"),
                ("Access-Control-Allow-Headers", "Content-Type")]
    body := BodyVal.empty }

/-- The 501 error page Python's http.server.BaseHTTPRequestHandler
sends (send_error with "Unsupported method (%r)") for a request whose
method has no do_METHOD handler on the handler class; the handler in
server.py defines only do_GET and do_OPTIONS. -/
def frameworkUnsupported (method : String) : Response :=
  { status := 501
    headers := [("Content-Type", "text/html;charset=utf-8"),
                ("Connection", "close")]
    body := BodyVal.html ("Unsupported method (" ++ method ++ ")") }

/-- Method dispatch, modelled from Python stdlib
http.server.BaseHTTPRequestHandler.handle_one_request: the request
method selects do_GET or do_OPTIONS when defined, and any other method
is answered by the framework's 501 error page without entering the
handler's code. -/
def handle_request (env : ServerEnv) (method : String) (raw : String) :
    Response × List Effect :=
  if method = "GET" then do_GET env raw
  else if method = "OPTIONS" then (do_OPTIONS, [])
  else (frameworkUnsupported method, [])

/-- A concrete environment for closed evaluations: the engine always
raises and the filesystem is empty. -/
def quietEnv : ServerEnv :=
  { videoInfo := fun _ => Except.error "no engine"
    download := fun _ =>
      { outputDir := "/tmp/ytdlp_q"
        primary := Except.error "primary failed"
        listingAfterPrimary := []
        fallback := Except.error "fallback failed"
        listingAfterFallback := [] }
    fs_exists := fun _ => false
    fs_read := fun _ => Except.error "unreadable" }

/-- An engine info record with every key absent. -/
def infoNone : InfoRecord :=
  { title? := none, uploader? := none, duration? := none, thumbnail? := none, id? := none }

/-- Concrete download behaviour where the primary attempt raises and
the fallback succeeds, leaving a single file in the output directory. -/
def fallbackDenv : DownloadEnv :=
  { outputDir := "/tmp/ytdlp_c1"
    primary := Except.error "ffmpeg missing"
    listingAfterPrimary := []
    fallback := Except.ok { infoNone with title? := some "T" }
    listingAfterFallback := [{ name := "T.webm", isFile := true, size := 5 }] }

/-- Environment where the primary download attempt succeeds but
produces no file in the output directory. -/
def softEnv : ServerEnv :=
  { quietEnv with
    download := fun _ =>
      { outputDir := "/tmp/ytdlp_s"
        primary := Except.ok { infoNone with title? := some "T" }
        listingAfterPrimary := []
        fallback := Except.error "unused"
        listingAfterFallback := [] } }

/-- Environment whose engine answers the no-download info query with a
record that has every key absent. -/
def infoEnv : ServerEnv :=
  { quietEnv with videoInfo := fun _ => Except.ok infoNone }

/-- Environment whose filesystem holds one two-byte file at /tmp/a. -/
def fileEnv : ServerEnv :=
  { quietEnv with
    fs_exists := fun p => p == "/tmp/a"
    fs_read := fun p =>
      if p == "/tmp/a" then Except.ok [104, 105] else Except.error "unreadable" }

/-! ## Supporting lemmas about query-string parsing -/

theorem unquoteChars_ne_nil (l : List Char) (h : l ≠ []) : unquoteChars l ≠ [] := by
  unfold unquoteChars
  split
  · simp_all
  · split <;> simp
  · simp
  · simp

theorem qsDecode_ne_empty (l : List Char) (h : l ≠ []) : qsDecode l ≠ "" := by
  intro hc
  have hd : unquoteChars (plusToSpace l) = [] := congrArg String.data hc
  have hne : plusToSpace l ≠ [] := by
    cases l with
    | nil => exact absurd rfl h
    | cons c rest => simp [plusToSpace]
  exact unquoteChars_ne_nil _ hne hd

theorem parsePair_value_ne_empty (nv : List Char) (k v : String)
    (h : parsePair nv = some (k, v)) : v ≠ "" := by
  unfold parsePair at h
  by_cases hnv : nv = []
  · simp [hnv] at h
  · rw [if_neg hnv] at h
    rcases hb : breakAtFirst '=' nv with ⟨name, rest⟩
    rw [hb] at h
    cases rest with
    | none => simp at h
    | some value =>
      dsimp only at h
      by_cases hval : value = []
      · simp [hval] at h
      · rw [if_neg hval] at h
        simp only [Option.some.injEq, Prod.mk.injEq] at h
        exact h.2 ▸ qsDecode_ne_empty value hval

theorem parse_qsl_value_ne_empty (qs k v : String)
    (h : (k, v) ∈ parse_qsl qs) : v ≠ "" := by
  unfold parse_qsl at h
  rcases List.mem_filterMap.mp h with ⟨nv, _, hp⟩
  exact parsePair_value_ne_empty nv k v hp

theorem getFirstParam_ne_some_empty (qs k : String) :
    getFirstParam (parse_qsl qs) k ≠ some "" := by
  intro h
  unfold getFirstParam at h
  rcases hf : (parse_qsl qs).find? (fun p => p.1 = k) with _ | ⟨k0, v0⟩
  · rw [hf] at h; simp at h
  · rw [hf] at h
    simp only [Option.map_some', Option.some.injEq] at h
    have hmem : (k0, v0) ∈ parse_qsl qs := List.mem_of_find?_eq_some hf
    exact parse_qsl_value_ne_empty qs k0 v0 hmem (by simpa using h)

/-! ## Claim theorems -/

/-- C9: every GET request whose target parses to the path /health is
answered 200 with exactly the body json dict status ok, version 1.0,
regardless of the query string. -/
theorem health_always_ok (env : ServerEnv) (raw : String)
    (hpath : (urlparse raw).path = "/health") :
    (do_GET env raw).1 =
      send_json (J.obj [("status", J.str "ok"), ("version", J.str "1.0")]) 200 := by
  unfold do_GET
  rw [hpath]
  simp

theorem health_always_ok_witness :
    (urlparse "/health?x=1").path = "/health"
    ∧ (do_GET quietEnv "/health?x=1").1 =
        send_json (J.obj [("status", J.str "ok"), ("version", J.str "1.0")]) 200 :=
  ⟨rfl, health_always_ok quietEnv "/health?x=1" rfl⟩

/-- C6: a GET request to /info or /download whose parsed query carries
no url parameter is answered 400 with the missing-url error body, and
a GET request to /file without a path parameter is answered 400 with
the missing-path error body; in every case the effect trace is empty,
so no engine call and no filesystem access happens. -/
theorem missing_parameter_400_no_effects (env : ServerEnv) (raw : String) :
    ((urlparse raw).path = "/info" →
      getFirstParam (parse_qsl (urlparse raw).query) "url" = none →
      do_GET env raw = (send_json (errJson "Missing url parameter") 400, []))
    ∧ ((urlparse raw).path = "/download" →
      getFirstParam (parse_qsl (urlparse raw).query) "url" = none →
      do_GET env raw = (send_json (errJson "Missing url parameter") 400, []))
    ∧ ((urlparse raw).path = "/file" →
      getFirstParam (parse_qsl (urlparse raw).query) "path" = none →
      do_GET env raw = (send_json (errJson "Missing path parameter") 400, [])) := by
  refine ⟨fun hp hu => ?_, fun hp hu => ?_, fun hp hu => ?_⟩ <;>
    (unfold do_GET; rw [hp, hu]; simp)

theorem missing_parameter_400_no_effects_witness :
    do_GET quietEnv "/info" = (send_json (errJson "Missing url parameter") 400, [])
    ∧ do_GET quietEnv "/download" = (send_json (errJson "Missing url parameter") 400, [])
    ∧ do_GET quietEnv "/file" = (send_json (errJson "Missing path parameter") 400, []) :=
  ⟨(missing_parameter_400_no_effects quietEnv "/info").1 rfl rfl,
   (missing_parameter_400_no_effects quietEnv "/download").2.1 rfl rfl,
   (missing_parameter_400_no_effects quietEnv "/file").2.2 rfl rfl⟩

/-- C10: a query pair with an empty value is dropped by parsing (the
parsed parameters never associate a key with the empty string), so a
request such as /info?url= is handled identically to /info: the same
400 missing-parameter response with no engine or filesystem effect,
for /info, /download and /file alike. -/
theorem blank_valued_param_treated_as_missing (env : ServerEnv) (qs k : String) :
    getFirstParam (parse_qsl qs) k ≠ some ""
    ∧ parse_qsl "url=" = parse_qsl ""
    ∧ parse_qsl "path=" = parse_qsl ""
    ∧ do_GET env "/info?url=" = do_GET env "/info"
    ∧ do_GET env "/download?url=" = do_GET env "/download"
    ∧ do_GET env "/file?path=" = do_GET env "/file"
    ∧ do_GET env "/info?url=" = (send_json (errJson "Missing url parameter") 400, [])
    ∧ do_GET env "/download?url=" = (send_json (errJson "Missing url parameter") 400, [])
    ∧ do_GET env "/file?path=" = (send_json (errJson "Missing path parameter") 400, []) :=
  ⟨getFirstParam_ne_some_empty qs k, rfl, rfl, rfl, rfl, rfl, rfl, rfl, rfl⟩

/-- Router dispatch for /download with a present, non-empty url whose
download operation returns a value: the value is sent as 200 JSON with
the operation's effect trace. -/
theorem do_GET_download_of_ok (env : ServerEnv) (raw url : String) (j : J)
    (hpath : (urlparse raw).path = "/download")
    (hurl : getFirstParam (parse_qsl (urlparse raw).query) "url" = some url)
    (hne : url ≠ "")
    (hres : (download_audio (env.download url) url).result = Except.ok j) :
    do_GET env raw = (send_json j 200, (download_audio (env.download url) url).effects) := by
  unfold do_GET
  rw [hpath, hurl]
  simp only [if_neg hne]
  rw [hres]
  simp

/-- Router dispatch for /download whose download operation raises: the
exception's message is sent as a 500 JSON error with the operation's
effect trace. -/
theorem do_GET_download_of_error (env : ServerEnv) (raw url msg : String)
    (hpath : (urlparse raw).path = "/download")
    (hurl : getFirstParam (parse_qsl (urlparse raw).query) "url" = some url)
    (hne : url ≠ "")
    (hres : (download_audio (env.download url) url).result = Except.error msg) :
    do_GET env raw =
      (send_json (errJson msg) 500, (download_audio (env.download url) url).effects) := by
  unfold do_GET
  rw [hpath, hurl]
  simp only [if_neg hne]
  rw [hres]
  simp

/-- C1: when the primary (transcode-enabled) attempt raises and the
fallback (format-only) attempt succeeds with title T leaving exactly
one file entry of fn bytes N in the output directory, download_audio
invokes the fallback exactly once and returns the success dict with
title T, the file's path under the created output directory, and size
N. -/
theorem download_fallback_success_result (denv : DownloadEnv) (url e T fn : String)
    (info : InfoRecord) (N : Nat)
    (hp : denv.primary = Except.error e)
    (hf : denv.fallback = Except.ok info)
    (ht : info.title? = some T)
    (hl : denv.listingAfterFallback = [{ name := fn, isFile := true, size := N }]) :
    (download_audio denv url).result =
      Except.ok (J.obj [("success", J.bool true), ("title", J.str T),
        ("filepath", J.str (denv.outputDir ++ "/" ++ fn)), ("size", J.num N)])
    ∧ (download_audio denv url).effects =
        [Effect.fsAccess "mkdtemp" denv.outputDir, Effect.engineCall "primary" url,
         Effect.engineCall "fallback" url, Effect.fsAccess "listdir" denv.outputDir,
         Effect.fsAccess "getsize" (denv.outputDir ++ "/" ++ fn)]
    ∧ (download_audio denv url).effects.count (Effect.engineCall "fallback" url) = 1
    ∧ (∃ rest, (denv.outputDir ++ "/" ++ fn).toList
        = (denv.outputDir ++ "/").toList ++ rest) := by
  unfold download_audio
  rw [hp, hf, hl]
  refine ⟨?_, ?_, ?_, ⟨fn.toList, rfl⟩⟩
  · simp [findFirstFile, ht]
  · simp [findFirstFile]
  · simp [findFirstFile, List.count_cons]

theorem download_fallback_success_result_witness :
    (download_audio fallbackDenv "u").result =
      Except.ok (J.obj [("success", J.bool true), ("title", J.str "T"),
        ("filepath", J.str (fallbackDenv.outputDir ++ "/" ++ "T.webm")), ("size", J.num 5)])
    ∧ (download_audio fallbackDenv "u").effects =
        [Effect.fsAccess "mkdtemp" fallbackDenv.outputDir, Effect.engineCall "primary" "u",
         Effect.engineCall "fallback" "u", Effect.fsAccess "listdir" fallbackDenv.outputDir,
         Effect.fsAccess "getsize" (fallbackDenv.outputDir ++ "/" ++ "T.webm")]
    ∧ (download_audio fallbackDenv "u").effects.count (Effect.engineCall "fallback" "u") = 1
    ∧ (∃ rest, (fallbackDenv.outputDir ++ "/" ++ "T.webm").toList
        = (fallbackDenv.outputDir ++ "/").toList ++ rest) :=
  download_fallback_success_result fallbackDenv "u" "ffmpeg missing" "T" "T.webm"
    { infoNone with title? := some "T" } 5 rfl rfl rfl rfl

/-- C2: when an extraction attempt (primary, or fallback after a
primary failure) completes without raising but the directory scan
finds no file entry, the operation returns the soft-error body and the
Router sends it as a 200 JSON response, not a 500. -/
theorem download_no_file_soft_error_200 (env : ServerEnv) (raw url : String)
    (hpath : (urlparse raw).path = "/download")
    (hurl : getFirstParam (parse_qsl (urlparse raw).query) "url" = some url)
    (hne : url ≠ "")
    (hscan :
      (∃ info, (env.download url).primary = Except.ok info
        ∧ findFirstFile (env.download url).listingAfterPrimary = none)
      ∨ ((∃ e, (env.download url).primary = Except.error e)
        ∧ (∃ info, (env.download url).fallback = Except.ok info)
        ∧ findFirstFile (env.download url).listingAfterFallback = none)) :
    (do_GET env raw).1 =
      send_json (errJson "Download completed but file not found") 200 := by
  have hres : (download_audio (env.download url) url).result =
      Except.ok (errJson "Download completed but file not found") := by
    unfold download_audio
    rcases hscan with ⟨info, hp, hfind⟩ | ⟨⟨e, hp⟩, ⟨info, hb⟩, hfind⟩
    · rw [hp, hfind]
    · rw [hp, hb, hfind]
  rw [do_GET_download_of_ok env raw url _ hpath hurl hne hres]

theorem download_no_file_soft_error_200_witness :
    (do_GET softEnv "/download?url=u").1 =
      send_json (errJson "Download completed but file not found") 200 :=
  download_no_file_soft_error_200 softEnv "/download?url=u" "u" rfl rfl
    (by decide) (Or.inl ⟨{ infoNone with title? := some "T" }, rfl, rfl⟩)

/-- C3: when both the primary and the fallback extraction attempts
raise, the fallback's exception propagates uncaught: the Router sends
a 500 JSON response carrying the fallback failure's message, and the
effect trace shows exactly one primary and one fallback engine call,
with no further retry. -/
theorem download_both_attempts_fail_500 (env : ServerEnv) (raw url e1 msg : String)
    (hpath : (urlparse raw).path = "/download")
    (hurl : getFirstParam (parse_qsl (urlparse raw).query) "url" = some url)
    (hne : url ≠ "")
    (hp : (env.download url).primary = Except.error e1)
    (hf : (env.download url).fallback = Except.error msg) :
    (do_GET env raw).1 = send_json (errJson msg) 500
    ∧ (do_GET env raw).2 =
        [Effect.fsAccess "mkdtemp" (env.download url).outputDir,
         Effect.engineCall "primary" url, Effect.engineCall "fallback" url] := by
  have hres : (download_audio (env.download url) url).result = Except.error msg := by
    unfold download_audio
    rw [hp, hf]
  have heff : (download_audio (env.download url) url).effects =
      [Effect.fsAccess "mkdtemp" (env.download url).outputDir,
       Effect.engineCall "primary" url, Effect.engineCall "fallback" url] := by
    unfold download_audio
    rw [hp, hf]
  rw [do_GET_download_of_error env raw url msg hpath hurl hne hres, heff]
  exact ⟨rfl, rfl⟩

theorem download_both_attempts_fail_500_witness :
    (do_GET quietEnv "/download?url=u").1 = send_json (errJson "fallback failed") 500
    ∧ (do_GET quietEnv "/download?url=u").2 =
        [Effect.fsAccess "mkdtemp" "/tmp/ytdlp_q",
         Effect.engineCall "primary" "u", Effect.engineCall "fallback" "u"] :=
  download_both_attempts_fail_500 quietEnv "/download?url=u" "u" "primary failed"
    "fallback failed" rfl rfl (by decide) rfl rfl

/-- C4: a successful /info request is answered 200 with the
projection of the engine's info record onto exactly the five metadata
response fields, each absent engine key replaced by its placeholder
default: "Unknown" for title and author, 0 for the duration in
seconds, the empty string for the thumbnail URL and the id.  The
source's JSON keys for the spec's durationSeconds and thumbnailUrl
fields are duration and thumbnail. -/
theorem info_metadata_projection (env : ServerEnv) (raw url : String) (info : InfoRecord)
    (hpath : (urlparse raw).path = "/info")
    (hurl : getFirstParam (parse_qsl (urlparse raw).query) "url" = some url)
    (hne : url ≠ "")
    (hok : env.videoInfo url = Except.ok info) :
    (do_GET env raw).1 = send_json (get_video_info info) 200
    ∧ get_video_info info =
        J.obj [("title", J.str (info.title?.getD "Unknown")),
               ("author", J.str (info.uploader?.getD "Unknown")),
               ("duration", J.num (info.duration?.getD 0)),
               ("thumbnail", J.str (info.thumbnail?.getD "")),
               ("id", J.str (info.id?.getD ""))]
    ∧ objKeys (get_video_info info) = ["title", "author", "duration", "thumbnail", "id"] := by
  refine ⟨?_, rfl, rfl⟩
  unfold do_GET
  rw [hpath, hurl]
  simp only [if_neg hne]
  rw [hok]
  simp

theorem info_metadata_projection_witness :
    (do_GET infoEnv "/info?url=u").1 = send_json (get_video_info infoNone) 200
    ∧ get_video_info infoNone =
        J.obj [("title", J.str (infoNone.title?.getD "Unknown")),
               ("author", J.str (infoNone.uploader?.getD "Unknown")),
               ("duration", J.num (infoNone.duration?.getD 0)),
               ("thumbnail", J.str (infoNone.thumbnail?.getD "")),
               ("id", J.str (infoNone.id?.getD ""))]
    ∧ objKeys (get_video_info infoNone) = ["title", "author", "duration", "thumbnail", "id"] :=
  info_metadata_projection infoEnv "/info?url=u" "u" infoNone rfl rfl (by decide) rfl

/-- C5: a /file request whose path parameter names an existing,
readable file is answered 200 with content type
application/octet-stream, a Content-Length equal to the file's exact
byte count, and a body whose bytes are exactly the file's contents. -/
theorem file_roundtrip_identity (env : ServerEnv) (raw p : String) (data : List Nat)
    (hpath : (urlparse raw).path = "/file")
    (hp : getFirstParam (parse_qsl (urlparse raw).query) "path" = some p)
    (hne : p ≠ "")
    (hex : env.fs_exists p = true)
    (hrd : env.fs_read p = Except.ok data) :
    (do_GET env raw).1 =
      { status := 200
        headers := [("Content-Type", "application/octet-stream"),
                    ("Content-Length", toString data.length),
                    ("Access-Control-Allow-Origin", "*")]
        body := BodyVal.bytes data } := by
  unfold do_GET
  rw [hpath, hp]
  simp only [if_neg hne]
  rw [hex]
  simp only [if_pos trivial, if_true]
  unfold send_file
  rw [hrd]
  simp

theorem file_roundtrip_identity_witness :
    (do_GET fileEnv "/file?path=/tmp/a").1 =
      { status := 200
        headers := [("Content-Type", "application/octet-stream"),
                    ("Content-Length", toString ([104, 105] : List Nat).length),
                    ("Access-Control-Allow-Origin", "*")]
        body := BodyVal.bytes [104, 105] } :=
  file_roundtrip_identity fileEnv "/file?path=/tmp/a" "/tmp/a" [104, 105]
    rfl rfl (by decide) rfl rfl

/-- C7, counterexample: a POST request to an unknown path is not
answered with the 404 JSON error; the handler class defines no
do_POST, so the HTTP framework answers 501 Unsupported method with an
HTML body.  The 404-independent-of-method part of the claim fails. -/
theorem unknown_path_post_not_404 :
    (handle_request quietEnv "POST" "/foo").1.status = 501
    ∧ (handle_request quietEnv "POST" "/foo").1.status ≠ 404
    ∧ BodyVal.isJson (handle_request quietEnv "POST" "/foo").1.body = false :=
  ⟨rfl, by decide, rfl⟩

/-- C7, amended: a GET request whose parsed path is none of /health,
/info, /download, /file is answered 404 with body error Not found; an
OPTIONS request is always answered 200 with the CORS headers and an
empty body; any other method is answered by the framework's 501
Unsupported method page, not by the handler. -/
theorem unknown_path_404_per_method (env : ServerEnv) (method raw : String) :
    (method = "GET" →
      (urlparse raw).path ≠ "/health" → (urlparse raw).path ≠ "/info" →
      (urlparse raw).path ≠ "/download" → (urlparse raw).path ≠ "/file" →
      (handle_request env method raw).1 = send_json (errJson "Not found") 404)
    ∧ (method = "OPTIONS" →
      handle_request env method raw =
        ({ status := 200
           headers := [("Access-Control-Allow-Origin", "*"),
                       ("Access-Control-Allow-Methods", "GET, POST, OPTIONS"),
                       ("Access-Control-Allow-Headers", "Content-Type")]
           body := BodyVal.empty }, []))
    ∧ (method ≠ "GET" → method ≠ "OPTIONS" →
      (handle_request env method raw).1 = frameworkUnsupported method) := by
  refine ⟨fun hm h1 h2 h3 h4 => ?_, fun hm => ?_, fun hg ho => ?_⟩
  · subst hm
    unfold handle_request do_GET
    simp only [if_pos rfl, if_neg h1, if_neg h2, if_neg h3, if_neg h4]
    simp
  · subst hm
    unfold handle_request
    simp [do_OPTIONS]
  · unfold handle_request
    simp only [if_neg hg, if_neg ho]

theorem unknown_path_404_per_method_witness :
    (handle_request quietEnv "GET" "/zzz").1 = send_json (errJson "Not found") 404
    ∧ handle_request quietEnv "OPTIONS" "/zzz" =
        ({ status := 200
           headers := [("Access-Control-Allow-Origin", "*"),
                       ("Access-Control-Allow-Methods", "GET, POST, OPTIONS"),
                       ("Access-Control-Allow-Headers", "Content-Type")]
           body := BodyVal.empty }, []) :=
  ⟨(unknown_path_404_per_method quietEnv "GET" "/zzz").1 rfl (by decide) (by decide)
      (by decide) (by decide),
   (unknown_path_404_per_method quietEnv "OPTIONS" "/zzz").2.1 rfl⟩

/-- Every response send_json builds carries the permissive CORS
header. -/
theorem acao_mem_send_json (d : J) (s : Nat) :
    ("Access-Control-Allow-Origin", "*") ∈ (send_json d s).headers := by
  simp [send_json]

/-- Every response send_file builds carries the permissive CORS
header, whether the read succeeds or raises. -/
theorem acao_mem_send_file (fsRead : String → Except String (List Nat)) (p : String) :
    ("Access-Control-Allow-Origin", "*") ∈ (send_file fsRead p).headers := by
  unfold send_file
  split <;> simp [send_json]

/-- Every response do_GET produces carries the permissive CORS
header. -/
theorem acao_mem_do_GET (env : ServerEnv) (raw : String) :
    ("Access-Control-Allow-Origin", "*") ∈ (do_GET env raw).1.headers := by
  unfold do_GET
  repeat' split
  all_goals try exact acao_mem_send_file env.fs_read _
  all_goals try simp [send_json]
  all_goals split <;> simp [send_json]

/-- C8: every JSON response the router produces, on any endpoint, any
method and any status code, carries the header
Access-Control-Allow-Origin: *. -/
theorem json_responses_carry_cors (env : ServerEnv) (method raw : String)
    (h : BodyVal.isJson (handle_request env method raw).1.body = true) :
    ("Access-Control-Allow-Origin", "*") ∈ (handle_request env method raw).1.headers := by
  unfold handle_request at h ⊢
  by_cases hg : method = "GET"
  · simp only [if_pos hg]
    exact acao_mem_do_GET env raw
  · by_cases ho : method = "OPTIONS"
    · simp only [if_neg hg, if_pos ho]
      simp [do_OPTIONS]
    · simp only [if_neg hg, if_neg ho] at h
      exact absurd h (by simp [frameworkUnsupported, BodyVal.isJson])

theorem json_responses_carry_cors_witness :
    BodyVal.isJson (handle_request quietEnv "GET" "/health").1.body = true
    ∧ ("Access-Control-Allow-Origin", "*") ∈
        (handle_request quietEnv "GET" "/health").1.headers :=
  ⟨rfl, json_responses_carry_cors quietEnv "GET" "/health" rfl⟩

theorem blank_valued_param_treated_as_missing_witness :
    do_GET quietEnv "/info?url=" = (send_json (errJson "Missing url parameter") 400, [])
    ∧ do_GET quietEnv "/file?path=" = (send_json (errJson "Missing path parameter") 400, []) :=
  ⟨(blank_valued_param_treated_as_missing quietEnv "u" "k").2.2.2.2.2.2.1,
   (blank_valued_param_treated_as_missing quietEnv "u" "k").2.2.2.2.2.2.2.2⟩

end MusicApp
